import Mathlib

/-!
Verification development for the JS-EVI-Dash analytics dashboard frontend.

The definitions below are a shallow embedding of the dashboard source
(the single React component file): the API client, the two conversation
thread send handlers, the history hydration effects, the message date
grouping, the generated-chart normalizer and its axis-tick formatter.
JavaScript numbers are modelled as exact rationals (`Rat`), JavaScript
strings as `String`, absent object fields as `Option`, and parsed JSON
values as the inductive `JsVal`.  The network environment (whether a
`fetch` resolves, its HTTP status, and its body) is passed explicitly as
an `ApiOutcome` value, so every embedded operation is a total function.
-/

/-- A parsed JSON value, as produced by `response.json()`. -/
inductive JsVal where
  | null
  | bool (b : Bool)
  | num (q : Rat)
  | str (s : String)
  | arr (xs : List JsVal)
  | obj (fields : List (String × JsVal))

/-- `Object.keys` on a JS value: own enumerable property names in insertion
order.  On arrays and strings these are the element indices; on primitives
the list is empty. -/
def jsObjectKeys : JsVal → List String
  | .obj fields => fields.map (fun f => f.1)
  | .arr xs => (List.range xs.length).map (fun i => toString i)
  | .str s => (List.range s.length).map (fun i => toString i)
  | _ => []

/-- JS `a || b` for a possibly-absent string `a`: the empty string is falsy,
so both an absent field and `""` fall through to the default. -/
def jsStrOr (a : Option String) (d : String) : String :=
  match a with
  | some s => if s = "" then d else s
  | none => d

/-- JS `String.prototype.trim`: strip whitespace from both ends.
(Embedded directly over the character list so that it is kernel-computable;
the JS and Lean whitespace classes agree on the inputs of interest.) -/
def jsTrim (s : String) : String :=
  String.mk (((s.data.dropWhile Char.isWhitespace).reverse.dropWhile Char.isWhitespace).reverse)

/-- Zero-pad the decimal rendering of `n` on the left to `k` digits. -/
def padZeros (k : Nat) (n : Nat) : String :=
  let s := toString n
  String.mk (List.replicate (k - s.length) '0') ++ s

/-- JS number-to-string conversion restricted to terminating decimals:
integers print without a fractional part, other values print their shortest
terminating decimal expansion (all values reaching `URLSearchParams` in this
app are multiples of 0.01).  A non-terminating rational falls back to a
`num/den` rendering, which no reachable input produces. -/
def jsNumToString (q : Rat) : String :=
  if q.den = 1 then toString q.num
  else
    match (List.range 11).find? (fun k => (q * ((10 : Rat) ^ k)).den = 1) with
    | some k =>
        let sgn := if q < 0 then "-" else ""
        let scaled := (q * ((10 : Rat) ^ k)).num.natAbs
        let ip := scaled / 10 ^ k
        let fr := scaled % 10 ^ k
        sgn ++ toString ip ++ "." ++ padZeros k fr
    | none => toString q.num ++ "/" ++ toString q.den

/-- The outcome of one HTTP round trip, as seen by the client code:
the fetch promise rejects (`reject`), the body fails to parse as JSON
(`badJson`, carrying `response.ok`), or a parsed body is delivered
(`payload`, carrying `response.ok` and the decoded body). -/
inductive ApiOutcome (α : Type) where
  | reject (msg : String)
  | badJson (ok : Bool) (msg : String)
  | payload (ok : Bool) (data : α)

-- ============================================================================
-- APIClient.fetchDashboardData: query-parameter serialization (source part_001
-- lines 13-24) and response handling (lines 25-33).
-- ============================================================================

/-- Dashboard time-window filter; the component state only ever holds one of
these five values (`useState('all')` plus the five period buttons). -/
inductive TimeFilter where
  | m1 | m3 | m6 | y1 | all
  deriving DecidableEq

/-- The query-parameter value of a `TimeFilter`. -/
def TimeFilter.toParam : TimeFilter → String
  | .m1 => "1m"
  | .m3 => "3m"
  | .m6 => "6m"
  | .y1 => "1y"
  | .all => "all"

/-- The filter tuple the dashboard passes to `fetchDashboardData`
(component state: four multi-select lists, four numeric bounds, time window).
Numeric bounds are JS numbers, modelled as rationals. -/
structure FilterState where
  regions : List String := []
  categories : List String := []
  customerTenure : List String := []
  customerRecency : List String := []
  totalTransactionsMin : Rat := 0
  totalTransactionsMax : Rat := 0
  discountMin : Rat := 0
  discountMax : Rat := 0
  timeFilter : TimeFilter := .all

/-- One conditional append call: the singleton key/value pair when
the guard holds, nothing otherwise. -/
def appendIf (c : Prop) [Decidable c] (k v : String) : List (String × String) :=
  if c then [(k, v)] else []

/-- The `URLSearchParams` built by `fetchDashboardData` (source lines 13-22),
in append order.  List filters are appended comma-joined when non-empty
(`length > 0`), numeric bounds when strictly positive (`> 0`; the field is
always defined in the model, matching the component call site which always
passes all nine fields), and `timeFilter` when it is not `'all'`. -/
def buildDashboardParams (f : FilterState) : List (String × String) :=
  appendIf (f.regions ≠ []) "regions" (String.intercalate "," f.regions) ++
  appendIf (f.categories ≠ []) "categories" (String.intercalate "," f.categories) ++
  appendIf (f.customerTenure ≠ []) "customerTenure" (String.intercalate "," f.customerTenure) ++
  appendIf (f.customerRecency ≠ []) "customerRecency" (String.intercalate "," f.customerRecency) ++
  appendIf (0 < f.totalTransactionsMin) "totalTransactionsMin" (jsNumToString f.totalTransactionsMin) ++
  appendIf (0 < f.totalTransactionsMax) "totalTransactionsMax" (jsNumToString f.totalTransactionsMax) ++
  appendIf (0 < f.discountMin) "discountMin" (jsNumToString f.discountMin) ++
  appendIf (0 < f.discountMax) "discountMax" (jsNumToString f.discountMax) ++
  appendIf (f.timeFilter ≠ .all) "timeFilter" f.timeFilter.toParam

/-- The keys of the appended query parameters, in order. -/
def paramKeys (f : FilterState) : List String :=
  (buildDashboardParams f).map (fun p => p.1)

/-- `URLSearchParams.toString()` over the built parameters (the values this
app appends contain no characters that percent-encoding rewrites). -/
def dashboardQueryString (f : FilterState) : String :=
  String.intercalate "&" ((buildDashboardParams f).map (fun p => p.1 ++ "=" ++ p.2))

/-- The body of `fetchDashboardData`'s `try` block (source lines 25-29):
a rejected fetch propagates, a non-2xx response throws, an unparseable body
propagates the parse rejection, a body that is not a non-empty array maps to
`null`, and otherwise the first element is returned. -/
def fetchDashboardDataTry (o : ApiOutcome JsVal) : Except String (Option JsVal) :=
  match o with
  | .reject m => .error m
  | .badJson ok m => if ok then .error m else .error "API error"
  | .payload ok j =>
      if ok then
        match j with
        | .arr (x :: _) => .ok (some x)
        | _ => .ok none
      else .error "API error"

/-- `APIClient.fetchDashboardData` (source lines 11-34): the `catch` turns
every thrown error into a `null` result, so the method always resolves. -/
def fetchDashboardData (o : ApiOutcome JsVal) : Option JsVal :=
  match fetchDashboardDataTry o with
  | .ok v => v
  | .error _ => none

/-- The result contract stated by the spec for the dashboard fetch: the
first element of the body exactly when the response is 2xx and the body is
a non-empty JSON array, `null` in every other case. -/
def dashboardSpecResult : ApiOutcome JsVal → Option JsVal
  | .payload true (.arr (x :: _)) => some x
  | _ => none

-- ============================================================================
-- Messages, threads and the send handlers (source lines 287-301, 431-456,
-- 477-517).
-- ============================================================================

/-- One generated-chart descriptor as delivered by the graphs API
(untrusted shape; every field except the title may be absent).
An absent title renders as nothing; it is modelled as the empty string. -/
structure Chart where
  title : String := ""
  chart_type : Option String := none
  error : Option String := none
  data : Option JsVal := none
  xKey : Option String := none
  yKey : Option String := none

/-- One conversation message (`{role, content, timestamp?, charts?}`). -/
structure ChatMsg where
  role : String
  content : String
  timestamp : Option String := none
  charts : Option (List Chart) := none

/-- The per-thread component state: message list, input buffer, in-flight
flag (`chatLoading` / `graphChatLoading`, the spec's `sending`/`pending`),
and the one-shot history-hydration flag. -/
structure ThreadState where
  messages : List ChatMsg := []
  input : String := ""
  loading : Bool := false
  historyLoaded : Bool := false

/-- The value `APIClient.analyzeText` resolves to (source lines 36-53):
a success record carrying the summary and an optional server timestamp, or
a failure record carrying an error string. -/
inductive AnalyzeResult where
  | ok (summary : String) (timestamp : Option String)
  | fail (error : String)

/-- `handleSendMessage` (source lines 431-456), the full round trip of the
analysis thread.  `result` is what `analyzeText` resolved to, `now1` is the
client clock at send time and `now2` at response time.  The second component
is the body text of the POST issued, or `none` when the guard made the call
a no-op. -/
def handleSendMessage (st : ThreadState) (result : AnalyzeResult)
    (now1 now2 : String) : ThreadState × Option String :=
  let text := jsTrim st.input
  if text = "" ∨ st.loading then (st, none)
  else
    let userMsg : ChatMsg := { role := "user", content := text, timestamp := some now1 }
    let st1 := { st with messages := st.messages ++ [userMsg], input := "", loading := true }
    let amsg : ChatMsg :=
      match result with
      | .ok summary ts =>
          { role := "assistant", content := summary, timestamp := some (jsStrOr ts now2) }
      | .fail err =>
          { role := "assistant", content := "Sorry, I ran into an issue: " ++ err,
            timestamp := some now2 }
    ({ st1 with messages := st1.messages ++ [amsg], loading := false }, some text)

/-- The fields of the `/graphs/generate` response body that
`handleSendGraphMessage` reads (`data.success`, `data.charts`, `data.error`,
`data.timestamp`). -/
structure GraphGenPayload where
  success : Bool := false
  charts : Option (List Chart) := none
  error : Option String := none
  timestamp : Option String := none

/-- `handleSendGraphMessage` (source lines 477-517), the full round trip of
the chart thread.  Note that this handler performs its own `fetch` and never
consults `response.ok`: an application-level `{success:false}` body is
wrapped with the "Sorry, I ran into an issue:" template, while a rejected
fetch or an unparseable body reaches the `catch` and is wrapped with the
"Connection error:" template.  The second component is the POST body text,
or `none` when the guard made the call a no-op. -/
def handleSendGraphMessage (st : ThreadState) (o : ApiOutcome GraphGenPayload)
    (now1 now2 : String) : ThreadState × Option String :=
  let text := jsTrim st.input
  if text = "" ∨ st.loading then (st, none)
  else
    let userMsg : ChatMsg := { role := "user", content := text, timestamp := some now1 }
    let st1 := { st with messages := st.messages ++ [userMsg], input := "", loading := true }
    let amsg : ChatMsg :=
      match o with
      | .payload _ d =>
          if d.success then
            { role := "assistant",
              content := "Here are your charts for: \"" ++ text ++ "\"",
              charts := some (d.charts.getD []),
              timestamp := some (jsStrOr d.timestamp now2) }
          else
            { role := "assistant",
              content := "Sorry, I ran into an issue: " ++ jsStrOr d.error "Unknown error",
              charts := some [], timestamp := some now2 }
      | .reject m =>
          { role := "assistant", content := "Connection error: " ++ m,
            charts := some [], timestamp := some now2 }
      | .badJson _ m =>
          { role := "assistant", content := "Connection error: " ++ m,
            charts := some [], timestamp := some now2 }
    ({ st1 with messages := st1.messages ++ [amsg], loading := false }, some text)

-- ============================================================================
-- History hydration (source lines 55-64, 320-334, 347-370).
-- ============================================================================

/-- One row of `/chat/history`. -/
structure ChatHistoryRow where
  user_message : String := ""
  assistant_response : String := ""
  created_at : Option String := none

/-- One row of `/graphs/history`. -/
structure GraphHistoryRow where
  user_message : String := ""
  created_at : Option String := none

/-- The fields of a history response body that the client reads. -/
structure HistoryPayload (α : Type) where
  success : Bool := false
  history : Option (List α) := none

/-- `APIClient.fetchChatHistory` (source lines 55-64): non-2xx returns `[]`
before parsing, a rejected fetch or unparseable body is caught to `[]`, and
a parsed body yields `data.history || []` only when `data.success`. -/
def fetchChatHistory (o : ApiOutcome (HistoryPayload ChatHistoryRow)) : List ChatHistoryRow :=
  match o with
  | .reject _ => []
  | .badJson _ _ => []
  | .payload ok d => if ok then (if d.success then d.history.getD [] else []) else []

/-- Expansion of analysis-thread history rows: each row becomes a user
message followed by an assistant message, both stamped with the row's
`created_at` (source lines 324-328). -/
def expandChatRows (rows : List ChatHistoryRow) : List ChatMsg :=
  rows.flatMap (fun row =>
    [{ role := "user", content := row.user_message, timestamp := row.created_at },
     { role := "assistant", content := row.assistant_response, timestamp := row.created_at }])

/-- The analysis-thread history effect (source lines 320-334): when the text
page is active and history was not yet loaded, fetch it, replace the message
list only when at least one row arrived, and set `historyLoaded` in every
case (`fetchChatHistory` itself never rejects). -/
def chatHistoryEffect (page : String) (st : ThreadState)
    (o : ApiOutcome (HistoryPayload ChatHistoryRow)) : ThreadState :=
  if page = "text" ∧ st.historyLoaded = false then
    let history := fetchChatHistory o
    let msgs := if 0 < history.length then expandChatRows history else st.messages
    { st with messages := msgs, historyLoaded := true }
  else st

/-- Expansion of chart-thread history rows: each user row is followed by a
synthetic assistant placeholder with an empty chart list (source lines
355-363). -/
def expandGraphRows (rows : List GraphHistoryRow) : List ChatMsg :=
  rows.flatMap (fun row =>
    [{ role := "user", content := row.user_message, timestamp := row.created_at },
     { role := "assistant",
       content := "📊 Charts were generated for this question (re-ask to regenerate).",
       charts := some [], timestamp := row.created_at }])

/-- The chart-thread history effect (source lines 347-370).  This effect
never consults the HTTP status: a parsed body populates messages whenever
`data.success` holds and `data.history` is a non-empty list; a rejected
fetch or unparseable body reaches the `catch`, which only sets the flag.
`historyLoaded` becomes true on every path. -/
def graphHistoryEffect (page : String) (st : ThreadState)
    (o : ApiOutcome (HistoryPayload GraphHistoryRow)) : ThreadState :=
  if page = "graphs" ∧ st.historyLoaded = false then
    match o with
    | .reject _ => { st with historyLoaded := true }
    | .badJson _ _ => { st with historyLoaded := true }
    | .payload _ d =>
        let msgs :=
          match d.history with
          | some l => if d.success = true ∧ 0 < l.length then expandGraphRows l else st.messages
          | none => st.messages
        { st with messages := msgs, historyLoaded := true }
  else st

-- ============================================================================
-- Date grouping of the analysis thread (source lines 164-177, 520-532).
-- ============================================================================

/-- A calendar date in the client's local time zone. -/
structure SimpleDate where
  year : Nat
  month : Nat
  day : Nat
  deriving DecidableEq

/-- `en-GB` short month names, as used by `toLocaleDateString`. -/
def monthShortGB : Nat → String
  | 1 => "Jan" | 2 => "Feb" | 3 => "Mar" | 4 => "Apr" | 5 => "May" | 6 => "Jun"
  | 7 => "Jul" | 8 => "Aug" | 9 => "Sep" | 10 => "Oct" | 11 => "Nov" | 12 => "Dec"
  | _ => ""

/-- `toLocaleDateString('en-GB', {day:'numeric', month:'short', year:'numeric'})`. -/
def renderDateGB (d : SimpleDate) : String :=
  toString d.day ++ " " ++ monthShortGB d.month ++ " " ++ toString d.year

/-- `formatDate` (source lines 170-177).  `parseDate` stands for the calendar
date `new Date(s)` denotes in the local time zone (`none` for an unparseable
string, which JS formats as "Invalid Date"); `today` is the current date.
A missing or empty timestamp yields the empty string. -/
def formatDate (parseDate : String → Option SimpleDate) (today : SimpleDate) :
    Option String → String
  | none => ""
  | some s =>
      if s = "" then ""
      else
        match parseDate s with
        | some d => if d = today then "Today" else renderDateGB d
        | none => "Invalid Date"

/-- One entry of the grouped display list: a date divider or a message. -/
inductive GroupItem where
  | divider (label : String)
  | message (m : ChatMsg)

/-- The loop body of `chatGroupedMessages` (source lines 520-532): `last` is
the mutable `lastDate` (initially `null`); a divider is pushed when the
label is truthy (non-empty) and differs from `lastDate`, and only then is
`lastDate` updated. -/
def groupLoop (fmt : Option String → String) : Option String → List ChatMsg → List GroupItem
  | _, [] => []
  | last, m :: rest =>
      let l := fmt m.timestamp
      if l ≠ "" ∧ some l ≠ last then
        .divider l :: .message m :: groupLoop fmt (some l) rest
      else
        .message m :: groupLoop fmt last rest

/-- `chatGroupedMessages` (source lines 520-532), parameterized by the
message-to-label function (`formatDate` applied to the timestamp). -/
def chatGroupedMessages (fmt : Option String → String) (msgs : List ChatMsg) : List GroupItem :=
  groupLoop fmt none msgs

/-- The grouping as the claim words it: a divider is inserted before a
message exactly when its formatted date differs from the previous message's
formatted date (the first message always gets one). -/
def claimGrouping (fmt : Option String → String) : Option String → List ChatMsg → List GroupItem
  | _, [] => []
  | prev, m :: rest =>
      let l := fmt m.timestamp
      if some l ≠ prev then
        .divider l :: .message m :: claimGrouping fmt (some l) rest
      else
        .message m :: claimGrouping fmt (some l) rest

/-- The messages contained in a grouped display list, in order. -/
def messagesOf : List GroupItem → List ChatMsg
  | [] => []
  | .divider _ :: rest => messagesOf rest
  | .message m :: rest => m :: messagesOf rest

-- ============================================================================
-- Generated-chart normalizer (source lines 1013-1071).
-- ============================================================================

/-- A normalized, safe-to-draw chart description. -/
structure RenderPlan where
  chartType : String
  xKey : String
  yKey : String
  rows : List JsVal

/-- What the chart renderer produces for one chart: one of the three
placeholders, or a renderable plan. -/
inductive RenderResult where
  | errorPlaceholder (title : String) (error : Option String)
  | noData (title : String)
  | columnsUndetermined (title : String) (keys : List String)
  | plan (p : RenderPlan)

/-- The chart normalizer embedded from the chart-rendering branch of
`graphPageJSX` (source lines 1017-1049): the `error` chart type is terminal;
a `data` field that is missing, not an array, or empty yields the "no data"
placeholder; axis keys resolve to the provided key when it is truthy
(non-empty) and a property of the first row, else to the first row's
first/second key; a falsy resolved key yields the "could not determine
columns" placeholder; otherwise a plan is produced with the chart type
defaulted to "bar". -/
def renderChart (c : Chart) : RenderResult :=
  if c.chart_type = some "error" then .errorPlaceholder c.title c.error
  else
    match c.data with
    | some (.arr (first :: rest)) =>
        let allKeys := jsObjectKeys first
        let rx : Option String :=
          match c.xKey with
          | some x => if x ≠ "" ∧ x ∈ allKeys then some x else allKeys[0]?
          | none => allKeys[0]?
        let ry : Option String :=
          match c.yKey with
          | some y => if y ≠ "" ∧ y ∈ allKeys then some y else allKeys[1]?
          | none => allKeys[1]?
        match rx, ry with
        | some x, some y =>
            if x = "" ∨ y = "" then .columnsUndetermined c.title allKeys
            else .plan { chartType := jsStrOr c.chart_type "bar", xKey := x, yKey := y,
                         rows := first :: rest }
        | _, _ => .columnsUndetermined c.title allKeys
    | _ => .noData c.title

/-- `c.data` holds no rows: it is absent, not an array, or an empty array. -/
def noRows : Option JsVal → Prop
  | some (.arr (_ :: _)) => False
  | _ => True

/-- The key-resolution rule exactly as claim C5 words it: the provided key
wins whenever it is a property name of the first row; otherwise the row's
`i`-th key is used. -/
def claimKeyRule (provided : Option String) (allKeys : List String) (i : Nat) : Option String :=
  match provided with
  | some k => if k ∈ allKeys then some k else allKeys[i]?
  | none => allKeys[i]?

/-- The key-resolution rule amended for JS truthiness: a provided key must
also be non-empty to win (an empty-string key falls through to the
positional fallback even when it is a property name of the first row). -/
def claimKeyRuleAmended (provided : Option String) (allKeys : List String) (i : Nat) :
    Option String :=
  match provided with
  | some k => if k ≠ "" ∧ k ∈ allKeys then some k else allKeys[i]?
  | none => allKeys[i]?

-- ============================================================================
-- Generated-chart y-axis tick formatter (source lines 1064-1070).
-- ============================================================================

/-- `Number.prototype.toFixed(1)`: round to the nearest tenth, ties toward
positive infinity (the ECMAScript rule picks the larger candidate), and
render with exactly one fraction digit.  (JS renders a negative zero sign
for inputs in (-0.05, 0); the formatter below only applies this to values
of magnitude at least 1, where the two agree.) -/
def ratToFixed1 (q : Rat) : String :=
  let n : Int := (q * 10 + 1 / 2).floor
  let sgn := if n < 0 then "-" else ""
  let m := n.natAbs
  sgn ++ toString (m / 10) ++ "." ++ toString (m % 10)

/-- Split a character list into chunks of three (last chunk may be short). -/
def chunk3 : List Char → List (List Char)
  | [] => []
  | a :: b :: c :: rest => [a, b, c] :: chunk3 rest
  | l => [l]

/-- Group the decimal digits of `n` in threes with commas (en-US style). -/
def groupDigits (n : Nat) : String :=
  let ds := (toString n).data.reverse
  String.mk ((List.intersperse [','] (chunk3 ds)).flatten.reverse)

/-- `Number.prototype.toLocaleString()` with the default (en-US style)
options: at most three fraction digits, ties rounded away from zero,
trailing fraction zeros dropped, and the integer part grouped in threes. -/
def ratLocaleString (q : Rat) : String :=
  let a := |q|
  let scaled := (a * 1000 + 1 / 2).floor.natAbs
  let ip := scaled / 1000
  let fr := scaled % 1000
  let frStr :=
    if fr = 0 then ""
    else if fr % 100 = 0 then "." ++ toString (fr / 100)
    else if fr % 10 = 0 then "." ++ padZeros 2 (fr / 10)
    else "." ++ padZeros 3 fr
  let sgn := if q < 0 ∧ scaled ≠ 0 then "-" else ""
  sgn ++ groupDigits ip ++ frStr

/-- The generated-chart y-axis `tickFormatter` (source lines 1064-1070),
restricted to numeric tick values (for which `isNaN(Number(v))` is false):
magnitudes of a million or more render as `#.#M`, of a thousand or more as
`#.#K`, and anything else through `toLocaleString`. -/
def tickFormatter (n : Rat) : String :=
  if 1000000 ≤ |n| then ratToFixed1 (n / 1000000) ++ "M"
  else if 1000 ≤ |n| then ratToFixed1 (n / 1000) ++ "K"
  else ratLocaleString n

-- ============================================================================
-- Concrete instances used by witnesses and counterexamples.
-- ============================================================================

/-- A thread with a whitespace-only input buffer and no call in flight. -/
def blankInputThread : ThreadState :=
  { messages := [], input := "   ", loading := false, historyLoaded := false }

/-- A `FilterState` with a negative transactions lower bound (a JS number the
`FilterState` type admits even though the sliders never produce it). -/
def negFilter : FilterState := { totalTransactionsMin := -1 }

/-- The spec's scenario filters: `{regions: ["West"], totalTransactionsMin: 5}`
with every other field at its default. -/
def scenarioFilter : FilterState := { regions := ["West"], totalTransactionsMin := 5 }

/-- A bar chart whose first row has an empty-string column name and whose
provided `xKey` is that empty string. -/
def emptyKeyChart : Chart :=
  { title := "t", chart_type := some "bar",
    data := some (.arr [.obj [("a", .num 1), ("", .num 2), ("b", .num 3)]]),
    xKey := some "", yKey := some "b" }

/-- The spec's scenario chart: one row `{month:"Jan", revenue:100}`, no
explicit keys. -/
def scenarioChart : Chart :=
  { title := "w", chart_type := some "bar",
    data := some (.arr [.obj [("month", .str "Jan"), ("revenue", .num 100)]]) }

/-- The spec's scenario chart for the no-data case: `{chart_type:"bar", data:[]}`. -/
def emptyDataChart : Chart :=
  { title := "T", chart_type := some "bar", data := some (.arr []) }

/-- A thread about to send the text "show revenue". -/
def pendingSendThread : ThreadState :=
  { messages := [], input := "show revenue", loading := false, historyLoaded := false }

/-- One graph-history row, used to exercise the graph hydration effect. -/
def graphRow : GraphHistoryRow := { user_message := "q", created_at := some "2024-01-02" }

/-- A fresh (not yet hydrated) thread. -/
def freshThread : ThreadState := {}

/-- A one-message list stamped with a parseable timestamp. -/
def groupMsgs : List ChatMsg :=
  [{ role := "user", content := "hi", timestamp := some "2026-10-11T10:00:00" }]

/-- A date parser that reads every string as 11 Oct 2026 (standing in for
`new Date` on the witness timestamps). -/
def groupParse : String → Option SimpleDate := fun _ => some ⟨2026, 10, 11⟩

/-- The client's current date in the grouping witness. -/
def groupToday : SimpleDate := ⟨2026, 10, 11⟩

-- ============================================================================
-- Helper lemmas.
-- ============================================================================

theorem mem_appendIf {c : Prop} [Decidable c] {k v x : String} :
    x ∈ (appendIf c k v).map Prod.fst ↔ c ∧ x = k := by
  unfold appendIf
  split <;> simp_all

theorem pair_mem_appendIf {c : Prop} [Decidable c] {k v : String} (h : c) :
    (k, v) ∈ appendIf c k v := by
  simp [appendIf, h]

theorem messagesOf_groupLoop (fmt : Option String → String) :
    ∀ (msgs : List ChatMsg) (last : Option String),
      messagesOf (groupLoop fmt last msgs) = msgs := by
  intro msgs
  induction msgs with
  | nil => intro _; rfl
  | cons m rest ih =>
      intro last
      simp only [groupLoop]
      split
      · simp [messagesOf, ih]
      · simp [messagesOf, ih]

theorem groupLoop_eq_claimGrouping (fmt : Option String → String) :
    ∀ (msgs : List ChatMsg), (∀ m ∈ msgs, fmt m.timestamp ≠ "") →
      ∀ last, groupLoop fmt last msgs = claimGrouping fmt last msgs := by
  intro msgs
  induction msgs with
  | nil => intro _ _; rfl
  | cons m rest ih =>
      intro h last
      have hm : fmt m.timestamp ≠ "" := h m (List.mem_cons_self m rest)
      have hrest : ∀ x ∈ rest, fmt x.timestamp ≠ "" :=
        fun x hx => h x (List.mem_cons_of_mem m hx)
      unfold groupLoop claimGrouping
      by_cases hc : some (fmt m.timestamp) ≠ last
      · rw [if_pos ⟨hm, hc⟩, if_pos hc, ih hrest (some (fmt m.timestamp))]
      · rw [if_neg (fun hh => hc hh.2), if_neg hc]
        have hlast : last = some (fmt m.timestamp) := (not_ne_iff.mp hc).symm
        rw [hlast, ih hrest (some (fmt m.timestamp))]

theorem renderChart_rows (c : Chart) (first : JsVal) (rest : List JsVal)
    (hd : c.data = some (.arr (first :: rest))) (he : c.chart_type ≠ some "error") :
    renderChart c =
      match claimKeyRuleAmended c.xKey (jsObjectKeys first) 0,
            claimKeyRuleAmended c.yKey (jsObjectKeys first) 1 with
      | some x, some y =>
          if x = "" ∨ y = "" then .columnsUndetermined c.title (jsObjectKeys first)
          else .plan { chartType := jsStrOr c.chart_type "bar", xKey := x, yKey := y,
                       rows := first :: rest }
      | _, _ => .columnsUndetermined c.title (jsObjectKeys first) := by
  unfold renderChart claimKeyRuleAmended
  rw [if_neg he, hd]

-- ============================================================================
-- Claim theorems.
-- ============================================================================

/-- Claim C1: for either conversation thread, invoking send while the
thread's in-flight flag is true, or with input that is empty or
whitespace-only, leaves the thread's message list unchanged and issues no
network request. -/
theorem send_noop_when_pending_or_blank (st : ThreadState) (r : AnalyzeResult)
    (o : ApiOutcome GraphGenPayload) (n1 n2 n3 n4 : String)
    (h : jsTrim st.input = "" ∨ st.loading = true) :
    (handleSendMessage st r n1 n2).1.messages = st.messages ∧
    (handleSendMessage st r n1 n2).2 = none ∧
    (handleSendGraphMessage st o n3 n4).1.messages = st.messages ∧
    (handleSendGraphMessage st o n3 n4).2 = none := by
  rcases h with h | h <;>
    simp [handleSendMessage, handleSendGraphMessage, h]

/-- Witness for C1 at a concrete whitespace-only input. -/
theorem send_noop_when_pending_or_blank_check :
    (handleSendMessage blankInputThread (.fail "e") "a" "b").1.messages =
      blankInputThread.messages ∧
    (handleSendMessage blankInputThread (.fail "e") "a" "b").2 = none ∧
    (handleSendGraphMessage blankInputThread (.reject "e") "c" "d").1.messages =
      blankInputThread.messages ∧
    (handleSendGraphMessage blankInputThread (.reject "e") "c" "d").2 = none :=
  send_noop_when_pending_or_blank blankInputThread (.fail "e") (.reject "e") "a" "b" "c" "d"
    (Or.inl (by decide))

/-- Claim C3: `fetchDashboardData` always resolves; it returns the first
element of the body exactly when the response is 2xx and the body is a
non-empty JSON array, and `null` in every other case (non-2xx, network
failure, unparseable body, non-array body, empty array). -/
theorem dashboard_fetch_result_contract (o : ApiOutcome JsVal) :
    fetchDashboardData o = dashboardSpecResult o := by
  cases o with
  | reject m => rfl
  | badJson ok m => cases ok <;> rfl
  | payload ok j =>
      cases ok with
      | false => rfl
      | true => cases j with
        | arr xs => cases xs <;> rfl
        | null => rfl
        | bool b => rfl
        | num q => rfl
        | str s => rfl
        | obj fields => rfl

/-- Claim C4: a chart whose type is not `"error"` and whose data is missing,
not an array, or empty renders as the "no data" placeholder carrying the
chart's title (`renderChart` is total, so no exception is possible, and the
result is not a renderable plan). -/
theorem chart_no_data_placeholder (c : Chart) (hty : c.chart_type ≠ some "error")
    (hd : noRows c.data) : renderChart c = .noData c.title := by
  unfold renderChart
  rw [if_neg hty]
  rcases hdata : c.data with _ | v
  · rfl
  · cases v with
    | arr xs =>
        cases xs with
        | nil => rfl
        | cons x rest =>
            rw [hdata] at hd
            exact hd.elim
    | null => rfl
    | bool b => rfl
    | num q => rfl
    | str s => rfl
    | obj fields => rfl

/-- Witness for C4 at the spec's scenario chart `{chart_type:"bar", data:[]}`. -/
theorem chart_no_data_placeholder_check :
    renderChart emptyDataChart = .noData "T" :=
  chart_no_data_placeholder emptyDataChart (by decide) (by trivial)

/-- Claim C5 (amended): for a chart with a non-empty row array that reaches a
renderable plan, the resolved axis keys follow the provided-key rule with the
JS truthiness amendment — a provided key wins only when it is non-empty and a
property name of the first row; otherwise the first row's first (second) key
is used. -/
theorem chart_key_resolution (c : Chart) (first : JsVal) (rest : List JsVal)
    (p : RenderPlan) (hd : c.data = some (.arr (first :: rest)))
    (hp : renderChart c = .plan p) :
    some p.xKey = claimKeyRuleAmended c.xKey (jsObjectKeys first) 0 ∧
    some p.yKey = claimKeyRuleAmended c.yKey (jsObjectKeys first) 1 := by
  have he : c.chart_type ≠ some "error" := by
    intro hcontra
    unfold renderChart at hp
    rw [if_pos hcontra] at hp
    exact RenderResult.noConfusion hp
  rw [renderChart_rows c first rest hd he] at hp
  split at hp
  · rename_i x y hx hy
    split at hp
    · exact RenderResult.noConfusion hp
    · cases hp
      exact ⟨hx.symm, hy.symm⟩
  · exact RenderResult.noConfusion hp

/-- Counterexample to C5 as stated: with first row `{a:1, "":2, b:3}` and
provided `xKey = ""`, the empty string is a property name of the first row,
so the claim's rule resolves the x key to `""`; the code's truthiness check
discards it and resolves to the first key `"a"` instead. -/
theorem chart_key_resolution_counterexample :
    renderChart emptyKeyChart =
      .plan { chartType := "bar", xKey := "a", yKey := "b",
              rows := [.obj [("a", .num 1), ("", .num 2), ("b", .num 3)]] } ∧
    claimKeyRule emptyKeyChart.xKey ["a", "", "b"] 0 = some "" ∧
    ("a" : String) ≠ "" := by
  refine ⟨rfl, rfl, by decide⟩

/-- Witness for C5 at the spec's scenario chart: `data:[{month:"Jan",
revenue:100}]` with no explicit keys resolves to `month`/`revenue`. -/
theorem chart_key_resolution_check :
    some "month" =
      claimKeyRuleAmended scenarioChart.xKey
        (jsObjectKeys (.obj [("month", .str "Jan"), ("revenue", .num 100)])) 0 ∧
    some "revenue" =
      claimKeyRuleAmended scenarioChart.yKey
        (jsObjectKeys (.obj [("month", .str "Jan"), ("revenue", .num 100)])) 1 :=
  chart_key_resolution scenarioChart (.obj [("month", .str "Jan"), ("revenue", .num 100)]) []
    { chartType := "bar", xKey := "month", yKey := "revenue",
      rows := [.obj [("month", .str "Jan"), ("revenue", .num 100)]] }
    rfl rfl

/-- Claim C2 (amended): a query parameter is appended exactly when its filter
is meaningfully set — a list filter when non-empty (comma-joined), a numeric
bound when strictly positive (so the default 0 is omitted, and so are the
negative values the type admits but the sliders never produce), and
`timeFilter` when it is not `"all"`. -/
theorem dashboard_param_inclusion (f : FilterState) :
    ("regions" ∈ paramKeys f ↔ f.regions ≠ []) ∧
    ("categories" ∈ paramKeys f ↔ f.categories ≠ []) ∧
    ("customerTenure" ∈ paramKeys f ↔ f.customerTenure ≠ []) ∧
    ("customerRecency" ∈ paramKeys f ↔ f.customerRecency ≠ []) ∧
    ("totalTransactionsMin" ∈ paramKeys f ↔ 0 < f.totalTransactionsMin) ∧
    ("totalTransactionsMax" ∈ paramKeys f ↔ 0 < f.totalTransactionsMax) ∧
    ("discountMin" ∈ paramKeys f ↔ 0 < f.discountMin) ∧
    ("discountMax" ∈ paramKeys f ↔ 0 < f.discountMax) ∧
    ("timeFilter" ∈ paramKeys f ↔ f.timeFilter ≠ TimeFilter.all) ∧
    (f.regions ≠ [] → ("regions", String.intercalate "," f.regions) ∈ buildDashboardParams f) ∧
    (0 < f.totalTransactionsMin →
      ("totalTransactionsMin", jsNumToString f.totalTransactionsMin) ∈ buildDashboardParams f) := by
  refine ⟨?_, ?_, ?_, ?_, ?_, ?_, ?_, ?_, ?_, ?_, ?_⟩ <;>
    simp [paramKeys, buildDashboardParams, List.map_append, List.mem_append, mem_appendIf,
      appendIf]

/-- Counterexample to C2 as stated: a filter whose transactions lower bound
is `-1` (not the default 0) produces no query parameters at all — the code
omits a numeric bound whenever it is not strictly positive, not only at the
default. -/
theorem dashboard_param_inclusion_counterexample :
    negFilter.totalTransactionsMin ≠ 0 ∧ buildDashboardParams negFilter = [] := by
  constructor
  · decide
  · decide

/-- Witness for C2 at the spec's scenario filters (`regions:["West"]`,
`totalTransactionsMin:5`, everything else default): the query contains
`regions=West` and `totalTransactionsMin=5` and none of the other
parameters. -/
theorem dashboard_param_inclusion_check :
    "regions" ∈ paramKeys scenarioFilter ∧
    "totalTransactionsMin" ∈ paramKeys scenarioFilter ∧
    "categories" ∉ paramKeys scenarioFilter ∧
    "customerTenure" ∉ paramKeys scenarioFilter ∧
    "discountMin" ∉ paramKeys scenarioFilter ∧
    "timeFilter" ∉ paramKeys scenarioFilter ∧
    ("regions", "West") ∈ buildDashboardParams scenarioFilter ∧
    ("totalTransactionsMin", "5") ∈ buildDashboardParams scenarioFilter := by
  obtain ⟨h1, h2, h3, h4, h5, h6, h7, h8, h9, h10, h11⟩ :=
    dashboard_param_inclusion scenarioFilter
  refine ⟨h1.mpr (by decide), h5.mpr (by decide), ?_, ?_, ?_, ?_, ?_, ?_⟩
  · exact fun hc => h2.mp hc rfl
  · exact fun hc => h3.mp hc rfl
  · exact fun hc => absurd (h7.mp hc) (by decide)
  · exact fun hc => h9.mp hc rfl
  · exact h10 (by decide)
  · exact h11 (by decide)

/-- Claim C6: when the chart-generation body resolves to
`{success:false, error:"LLM timeout"}` (any HTTP status), the chart thread
gains exactly the optimistic user message and one assistant message whose
content is `"Sorry, I ran into an issue: LLM timeout"` with an empty charts
array, and the in-flight flag ends false. -/
theorem graph_send_failure_message (st : ThreadState) (ok : Bool) (n1 n2 : String)
    (h1 : jsTrim st.input ≠ "") (h2 : st.loading = false) :
    (handleSendGraphMessage st
        (.payload ok { success := false, error := some "LLM timeout" }) n1 n2).1.messages =
      st.messages ++
        [{ role := "user", content := jsTrim st.input, timestamp := some n1 },
         { role := "assistant", content := "Sorry, I ran into an issue: LLM timeout",
           charts := some [], timestamp := some n2 }] ∧
    (handleSendGraphMessage st
        (.payload ok { success := false, error := some "LLM timeout" }) n1 n2).1.loading =
      false := by
  have hguard : ¬(jsTrim st.input = "" ∨ st.loading = true) := by
    rintro (h | h)
    · exact h1 h
    · rw [h2] at h
      exact Bool.noConfusion h
  have hmsg : ("Sorry, I ran into an issue: " ++ jsStrOr (some "LLM timeout") "Unknown error")
      = "Sorry, I ran into an issue: LLM timeout" := by decide
  constructor
  · simp only [handleSendGraphMessage, if_neg hguard, hmsg]
    simp [List.append_assoc]
  · simp only [handleSendGraphMessage, if_neg hguard]

/-- Witness for C6 at a concrete thread. -/
theorem graph_send_failure_message_check :
    (handleSendGraphMessage pendingSendThread
        (.payload true { success := false, error := some "LLM timeout" }) "t1" "t2").1.messages =
      pendingSendThread.messages ++
        [{ role := "user", content := jsTrim pendingSendThread.input, timestamp := some "t1" },
         { role := "assistant", content := "Sorry, I ran into an issue: LLM timeout",
           charts := some [], timestamp := some "t2" }] ∧
    (handleSendGraphMessage pendingSendThread
        (.payload true { success := false, error := some "LLM timeout" }) "t1" "t2").1.loading =
      false :=
  graph_send_failure_message pendingSendThread true "t1" "t2" (by decide) rfl

/-- Claim C10: when the chart thread's own network round trip fails — the
fetch rejects or the body is not parseable JSON — the thread gains exactly
the optimistic user message and one assistant message whose content is
`"Connection error: "` followed by the error message (a different template
from the application-level `"Sorry, I ran into an issue: "` wrap), with an
empty charts array, and the in-flight flag ends false. -/
theorem graph_send_connection_error (st : ThreadState) (b : Bool) (m n1 n2 : String)
    (h1 : jsTrim st.input ≠ "") (h2 : st.loading = false) :
    (handleSendGraphMessage st (.reject m) n1 n2).1.messages =
      st.messages ++
        [{ role := "user", content := jsTrim st.input, timestamp := some n1 },
         { role := "assistant", content := "Connection error: " ++ m,
           charts := some [], timestamp := some n2 }] ∧
    (handleSendGraphMessage st (.badJson b m) n1 n2).1.messages =
      st.messages ++
        [{ role := "user", content := jsTrim st.input, timestamp := some n1 },
         { role := "assistant", content := "Connection error: " ++ m,
           charts := some [], timestamp := some n2 }] ∧
    (handleSendGraphMessage st (.reject m) n1 n2).1.loading = false ∧
    (handleSendGraphMessage st (.badJson b m) n1 n2).1.loading = false ∧
    ("Connection error: " : String) ≠ "Sorry, I ran into an issue: " := by
  have hguard : ¬(jsTrim st.input = "" ∨ st.loading = true) := by
    rintro (h | h)
    · exact h1 h
    · rw [h2] at h
      exact Bool.noConfusion h
  refine ⟨?_, ?_, ?_, ?_, by decide⟩
  · simp only [handleSendGraphMessage, if_neg hguard]
    simp [List.append_assoc]
  · simp only [handleSendGraphMessage, if_neg hguard]
    simp [List.append_assoc]
  · simp only [handleSendGraphMessage, if_neg hguard]
  · simp only [handleSendGraphMessage, if_neg hguard]

/-- Witness for C10 at a concrete thread and error message. -/
theorem graph_send_connection_error_check :
    (handleSendGraphMessage pendingSendThread (.reject "Failed to fetch") "t1" "t2").1.messages =
      pendingSendThread.messages ++
        [{ role := "user", content := jsTrim pendingSendThread.input, timestamp := some "t1" },
         { role := "assistant", content := "Connection error: " ++ "Failed to fetch",
           charts := some [], timestamp := some "t2" }] ∧
    (handleSendGraphMessage pendingSendThread (.badJson false "Unexpected token <") "t1" "t2").1.messages =
      pendingSendThread.messages ++
        [{ role := "user", content := jsTrim pendingSendThread.input, timestamp := some "t1" },
         { role := "assistant", content := "Connection error: " ++ "Unexpected token <",
           charts := some [], timestamp := some "t2" }] ∧
    (handleSendGraphMessage pendingSendThread (.reject "Failed to fetch") "t1" "t2").1.loading =
      false ∧
    (handleSendGraphMessage pendingSendThread
        (.badJson false "Unexpected token <") "t1" "t2").1.loading = false ∧
    ("Connection error: " : String) ≠ "Sorry, I ran into an issue: " := by
  have h := graph_send_connection_error pendingSendThread false "Failed to fetch" "t1" "t2"
    (by decide) rfl
  have h2 := graph_send_connection_error pendingSendThread false "Unexpected token <" "t1" "t2"
    (by decide) rfl
  exact ⟨h.1, h2.2.1, h.2.2.1, h2.2.2.2.1, h.2.2.2.2⟩

/-- Claim C7 (amended): a failed history fetch never throws, leaves the
thread's message list unchanged (hence empty when it started empty), and
`historyLoaded` is true after every hydration attempt.  For the analysis
thread "failed" is a rejected fetch, an unparseable body, or a non-2xx
status (the client checks `response.ok`); for the chart thread the HTTP
status is never consulted, so "failed" is a rejected fetch, an unparseable
body, or a body whose `success` field is falsy — a non-2xx response carrying
a well-formed success payload still populates the thread. -/
theorem history_hydration_failure (st1 st2 : ThreadState)
    (o1 : ApiOutcome (HistoryPayload ChatHistoryRow))
    (o2 : ApiOutcome (HistoryPayload GraphHistoryRow))
    (h1 : st1.historyLoaded = false) (h2 : st2.historyLoaded = false) :
    ((match o1 with
      | .reject _ => True
      | .badJson _ _ => True
      | .payload ok _ => ok = false) →
      (chatHistoryEffect "text" st1 o1).messages = st1.messages) ∧
    (chatHistoryEffect "text" st1 o1).historyLoaded = true ∧
    ((match o2 with
      | .reject _ => True
      | .badJson _ _ => True
      | .payload _ d => d.success = false) →
      (graphHistoryEffect "graphs" st2 o2).messages = st2.messages) ∧
    (graphHistoryEffect "graphs" st2 o2).historyLoaded = true := by
  have hcond1 : ("text" : String) = "text" ∧ st1.historyLoaded = false := ⟨rfl, h1⟩
  have hcond2 : ("graphs" : String) = "graphs" ∧ st2.historyLoaded = false := ⟨rfl, h2⟩
  refine ⟨?_, ?_, ?_, ?_⟩
  · intro hfail
    cases o1 with
    | reject m => simp [chatHistoryEffect, fetchChatHistory, hcond1]
    | badJson ok m => simp [chatHistoryEffect, fetchChatHistory, hcond1]
    | payload ok d =>
        rw [hfail]
        simp [chatHistoryEffect, fetchChatHistory, hcond1]
  · cases o1 with
    | reject m => simp [chatHistoryEffect, hcond1]
    | badJson ok m => simp [chatHistoryEffect, hcond1]
    | payload ok d => simp [chatHistoryEffect, hcond1]
  · intro hfail
    cases o2 with
    | reject m => simp [graphHistoryEffect, hcond2]
    | badJson ok m => simp [graphHistoryEffect, hcond2]
    | payload ok d =>
        have hf : d.success = false := hfail
        cases hh : d.history with
        | none => simp [graphHistoryEffect, h2, hh]
        | some l => simp [graphHistoryEffect, h2, hh, hf]
  · cases o2 with
    | reject m => simp [graphHistoryEffect, hcond2]
    | badJson ok m => simp [graphHistoryEffect, hcond2]
    | payload ok d =>
        cases hh : d.history with
        | none => simp [graphHistoryEffect, h2, hh]
        | some l => simp [graphHistoryEffect, h2, hh]

/-- Witness for C7: a rejected chat-history fetch and a non-2xx graph-history
response with an unsuccessful body leave both fresh threads empty with
`historyLoaded` set. -/
theorem history_hydration_failure_check :
    ((match (ApiOutcome.reject "Failed to fetch" : ApiOutcome (HistoryPayload ChatHistoryRow)) with
      | .reject _ => True
      | .badJson _ _ => True
      | .payload ok _ => ok = false) →
      (chatHistoryEffect "text" freshThread (.reject "Failed to fetch")).messages =
        freshThread.messages) ∧
    (chatHistoryEffect "text" freshThread (.reject "Failed to fetch")).historyLoaded = true ∧
    ((match (ApiOutcome.payload false { success := false } :
        ApiOutcome (HistoryPayload GraphHistoryRow)) with
      | .reject _ => True
      | .badJson _ _ => True
      | .payload _ d => d.success = false) →
      (graphHistoryEffect "graphs" freshThread (.payload false { success := false })).messages =
        freshThread.messages) ∧
    (graphHistoryEffect "graphs" freshThread
        (.payload false { success := false })).historyLoaded = true :=
  history_hydration_failure freshThread freshThread (.reject "Failed to fetch")
    (.payload false { success := false }) rfl rfl

/-- Counterexample to C7 as stated: a non-2xx graph-history response whose
body is nevertheless a well-formed success payload populates the chart
thread (two messages appear), because the graph-history effect never checks
the HTTP status — so "non-2xx yields an empty message sequence" fails for
the chart thread. -/
theorem history_hydration_counterexample :
    (graphHistoryEffect "graphs" freshThread
        (.payload false { success := true, history := some [graphRow] })).messages.length = 2 := by
  decide

/-- Claim C9: the display grouping of the analysis thread — under the thread
invariant that every message carries a timestamp with a non-empty formatted
date, which every append path of the thread establishes — inserts a divider
before a message exactly when its formatted calendar date differs from the
previous message's (the rule `claimGrouping` embodies), contains every input
message exactly once in the original order, and labels dates "Today" for
today and day/month/year otherwise. -/
theorem chat_grouping_matches_claim (pd : String → Option SimpleDate) (today : SimpleDate)
    (msgs : List ChatMsg)
    (h : ∀ m ∈ msgs, formatDate pd today m.timestamp ≠ "") :
    chatGroupedMessages (formatDate pd today) msgs
      = claimGrouping (formatDate pd today) none msgs ∧
    messagesOf (chatGroupedMessages (formatDate pd today) msgs) = msgs ∧
    (∀ s d, s ≠ "" → pd s = some d →
      formatDate pd today (some s) = if d = today then "Today" else renderDateGB d) := by
  refine ⟨groupLoop_eq_claimGrouping (formatDate pd today) msgs h none,
    messagesOf_groupLoop (formatDate pd today) msgs none, ?_⟩
  intro s d hs hd
  simp only [formatDate]
  rw [if_neg hs, hd]

/-- Witness for C9 at a one-message list with a parseable timestamp. -/
theorem chat_grouping_matches_claim_check :
    chatGroupedMessages (formatDate groupParse groupToday) groupMsgs
      = claimGrouping (formatDate groupParse groupToday) none groupMsgs ∧
    messagesOf (chatGroupedMessages (formatDate groupParse groupToday) groupMsgs) = groupMsgs ∧
    (∀ s d, s ≠ "" → groupParse s = some d →
      formatDate groupParse groupToday (some s) =
        if d = groupToday then "Today" else renderDateGB d) :=
  chat_grouping_matches_claim groupParse groupToday groupMsgs (by decide)

unseal Rat.mul Rat.inv Rat.add Rat.sub in
/-- Counterexample to C8 as stated: the tick formatter tests the magnitude
(`Math.abs`), so `-2000000` — which the claim assigns to the locale-grouped
branch, `"-2,000,000"` — actually renders as `"-2.0M"`. -/
theorem tick_formatter_counterexample :
    tickFormatter (-2000000) = "-2.0M" ∧ ratLocaleString (-2000000) = "-2,000,000" ∧
    ("-2.0M" : String) ≠ "-2,000,000" := by
  refine ⟨by decide, by decide, by decide⟩

/-- Claim C8 (amended): the generated-chart y-axis tick formatter renders a
numeric value `v` as `#.#M` (with `v/1,000,000` to one decimal) when
`|v| ≥ 1,000,000`, as `#.#K` (with `v/1,000` to one decimal) when
`1,000 ≤ |v| < 1,000,000`, and as a locale-grouped number otherwise. -/
theorem tick_formatter_thresholds (q : Rat) :
    (1000000 ≤ |q| → tickFormatter q = ratToFixed1 (q / 1000000) ++ "M") ∧
    (1000 ≤ |q| → |q| < 1000000 → tickFormatter q = ratToFixed1 (q / 1000) ++ "K") ∧
    (|q| < 1000 → tickFormatter q = ratLocaleString q) := by
  unfold tickFormatter
  refine ⟨fun h => by rw [if_pos h], fun ha hb => ?_, fun h => ?_⟩
  · rw [if_neg (by linarith), if_pos ha]
  · rw [if_neg (by linarith), if_neg (by linarith)]

unseal Rat.mul Rat.inv Rat.add Rat.sub in
/-- Witness for C8 at concrete values in each band (including a negative
thousand-range value showing the magnitude test). -/
theorem tick_formatter_thresholds_check :
    tickFormatter 2500000 = "2.5M" ∧ tickFormatter (-1500) = "-1.5K" ∧
    tickFormatter 999 = "999" := by
  refine ⟨?_, ?_, ?_⟩
  · rw [(tick_formatter_thresholds 2500000).1 (by decide)]
    decide
  · rw [(tick_formatter_thresholds (-1500)).2.1 (by decide) (by decide)]
    decide
  · rw [(tick_formatter_thresholds 999).2.2 (by decide)]
    decide
